import Mathlib

/-!
# Verification of the davies cave-survey library

Shallow embedding of the claim-relevant parts of the `davies` repository:
the Compass (Format A) domain model (`davies/compass/__init__.py`), the
Compass plot model (`davies/compass/plt.py`), the PocketTopo (Format B)
domain model (`davies/pockettopo/__init__.py`) and the scalar survey math
(`davies/survey_math.py`).  Python floats are modelled as rationals `ℚ`
(all arithmetic appearing in the claims is exact), Python `None` as
`Option.none`, and Python exceptions as `Except` values.
-/

set_option maxRecDepth 4000

/-- Python's `%` operator on floats with a positive modulus: the result takes
the sign of the divisor, i.e. `x % y = x - y * floor (x / y)`. -/
def pymod (x y : ℚ) : ℚ := x - y * ⌊x / y⌋

/-- Python exceptions relevant to the embedded code paths. -/
inductive PyExc
  | valueError
  | typeError
  deriving Repr, DecidableEq

/-! ## Format A: `Shot` (davies/compass/\_\_init\_\_.py, class Shot)

A Compass shot is an ordered field collection; the claims touch only the
fixed vocabulary of known keys, so it is embedded as a record of optional
values, plus the `declination` scalar stamped by the owning survey. -/

/-- Shot exclusion flag characters (class `Exclude`). -/
def Exclude.LENGTH : Char := 'L'

/-- `Exclude.TOTAL = 'X'`. -/
def Exclude.TOTAL : Char := 'X'

/-- `Exclude.CLOSURE = 'C'`. -/
def Exclude.CLOSURE : Char := 'C'

/-- `Exclude.PLOT = 'P'`. -/
def Exclude.PLOT : Char := 'P'

/-- A Format-A shot: optional fields of the fixed vocabulary plus the
stamped `declination` (default `0.0` as in `Shot.__init__`). -/
structure CShot where
  FROM : Option String := none
  TO : Option String := none
  LENGTH : Option ℚ := none
  BEARING : Option ℚ := none
  AZM2 : Option ℚ := none
  INC : Option ℚ := none
  INC2 : Option ℚ := none
  LEFT : Option ℚ := none
  RIGHT : Option ℚ := none
  UP : Option ℚ := none
  DOWN : Option ℚ := none
  FLAGS : Option String := none
  COMMENTS : Option String := none
  declination : ℚ := 0
  deriving Repr, DecidableEq

/-- `Shot.azm`: corrected azimuth.  The source reads `BEARING` and `AZM2`
with `None` defaults, returns `None` when both are absent, `azm1 +
declination` when only `BEARING` is present, `(azm2 + 180) % 360 +
declination` when only `AZM2` is present, and the average of the two
otherwise. -/
def CShot.azm (s : CShot) : Option ℚ :=
  match s.BEARING, s.AZM2 with
  | none, none => none
  | some azm1, none => some (azm1 + s.declination)
  | none, some azm2 => some (pymod (azm2 + 180) 360 + s.declination)
  | some azm1, some azm2 => some ((azm1 + pymod (azm2 + 180) 360) / 2 + s.declination)

/-- `Shot.inc`: corrected inclination.  `None` when both `INC` and `INC2`
are absent, `inc1` when only `INC` is present, `-1 * inc2` when only
`INC2` is present, else `(inc1 - inc2) / 2.0`. -/
def CShot.inc (s : CShot) : Option ℚ :=
  match s.INC, s.INC2 with
  | none, none => none
  | some inc1, none => some inc1
  | none, some inc2 => some (-1 * inc2)
  | some inc1, some inc2 => some ((inc1 - inc2) / 2)

/-- `Shot.flags`: the character set of the `FLAGS` field (`set(self.get('FLAGS', ''))`). -/
def CShot.flags (s : CShot) : List Char := (s.FLAGS.getD "").toList

/-- `Shot.length`: the raw `LENGTH` value (`self.get('LENGTH', None)`). -/
def CShot.length (s : CShot) : Option ℚ := s.LENGTH

/-- `Shot.is_included`: `Exclude.LENGTH not in self.flags and Exclude.TOTAL not in self.flags`. -/
def CShot.is_included (s : CShot) : Bool :=
  !(s.flags.contains Exclude.LENGTH) && !(s.flags.contains Exclude.TOTAL)

/-- `Shot.is_excluded`: `Exclude.LENGTH in self.flags or Exclude.TOTAL in self.flags`. -/
def CShot.is_excluded (s : CShot) : Bool :=
  s.flags.contains Exclude.LENGTH || s.flags.contains Exclude.TOTAL

/-! `azm`/`inc` as the specification words them (the spec's four-case
description), for the refinement claim C1. -/

/-- Modelled from the spec: "corrected azimuth: absent if both BEARING and
AZM2 absent; `BEARING + declination` if only BEARING present;
`((AZM2+180) mod 360) + declination` if only AZM2 present; else
`(BEARING + (AZM2+180) mod 360)/2 + declination`". -/
def spec_azm (bearing azm2 : Option ℚ) (declination : ℚ) : Option ℚ :=
  match bearing, azm2 with
  | none, none => none
  | some b, none => some (b + declination)
  | none, some a2 => some (pymod (a2 + 180) 360 + declination)
  | some b, some a2 => some ((b + pymod (a2 + 180) 360) / 2 + declination)

/-- Modelled from the spec: "corrected inclination: absent if both INC and
INC2 absent; `INC` if only INC present; `-INC2` if only INC2 present;
else `(INC - INC2)/2`". -/
def spec_inc (inc inc2 : Option ℚ) : Option ℚ :=
  match inc, inc2 with
  | none, none => none
  | some i1, none => some i1
  | none, some i2 => some (-i2)
  | some i1, some i2 => some ((i1 - i2) / 2)

/-! ## Format A: `Survey` (davies/compass/\_\_init\_\_.py, class Survey)

Only the claim-relevant state is embedded: the declination, the shot list
and the identifying fields.  `add_shot` stamps the survey's declination
onto the shot before appending (`shot.declination = self.declination`). -/

/-- A Format-A survey. -/
structure CSurvey where
  name : String := ""
  comment : String := ""
  team : List String := []
  declination : ℚ := 0
  cave_name : String := ""
  shots : List CShot := []
  deriving Repr, DecidableEq

/-- `Survey.add_shot`: stamp the survey's current declination onto the
shot, then append it to `shots`. -/
def CSurvey.add_shot (sv : CSurvey) (shot : CShot) : CSurvey :=
  { sv with shots := sv.shots ++ [{ shot with declination := sv.declination }] }

/-- Python's `sum` over a list of optional numbers (`None` models a value
whose addition raises `TypeError`): left fold from `0`, aborting with
`none` at the first absent element. -/
def pySumAux (acc : ℚ) : List (Option ℚ) → Option ℚ
  | [] => some acc
  | none :: _ => none
  | some x :: rest => pySumAux (acc + x) rest

/-- `sum(...)` over optional values, starting from `0`. -/
def pySum (l : List (Option ℚ)) : Option ℚ := pySumAux 0 l

/-- `Survey.length`: `sum([shot.length for shot in self.shots])`. -/
def CSurvey.length (sv : CSurvey) : Option ℚ :=
  pySum (sv.shots.map CShot.length)

/-- `Survey.included_length`: `sum([shot.length for shot in self.shots if shot.is_included])`. -/
def CSurvey.included_length (sv : CSurvey) : Option ℚ :=
  pySum ((sv.shots.filter CShot.is_included).map CShot.length)

/-- `Survey.excluded_length`: sum over shots with
`Exclude.LENGTH in shot.flags or Exclude.TOTAL in shot.flags`. -/
def CSurvey.excluded_length (sv : CSurvey) : Option ℚ :=
  pySum ((sv.shots.filter
    (fun shot => shot.flags.contains Exclude.LENGTH || shot.flags.contains Exclude.TOTAL)).map
      CShot.length)

/-- The numeric value of a shot's length, defaulting absent to `0`
(used only to state sums under the everything-numeric precondition). -/
def shotLen (s : CShot) : ℚ := (s.LENGTH).getD 0

/-! ## Python string primitives

Executable models of the Python `str` operations the parsers use. -/

/-- Strip characters satisfying `p` from both ends of a character list
(Python `str.strip`): drop from the left, then from the right. -/
def stripList (p : Char → Bool) (l : List Char) : List Char :=
  ((l.dropWhile p).reverse.dropWhile p).reverse

/-- Python `str.strip()` (no argument): strip whitespace from both ends. -/
def pyStripWs (s : String) : String := ⟨stripList Char.isWhitespace s.data⟩

/-- Python `str.strip(chars)`: strip any characters drawn from the *set*
`chars` from both ends (not prefix/suffix removal). -/
def pyStripSet (s : String) (chars : List Char) : String :=
  ⟨stripList (fun c => chars.contains c) s.data⟩

/-- Python `str.startswith`. -/
def pyStartsWith (s p : String) : Bool := p.data.isPrefixOf s.data

/-- Split a character list at every character satisfying `p`, keeping
empty groups (the underlying behaviour of `str.split(sep)`). -/
def splitOnPred (p : Char → Bool) : List Char → List (List Char)
  | [] => [[]]
  | c :: rest =>
    match splitOnPred p rest with
    | [] => [[c]]
    | grp :: grps => if p c then [] :: grp :: grps else (c :: grp) :: grps

/-- Python `str.split()` with no arguments: split on whitespace runs,
discarding empty fields. -/
def pySplitWs (s : String) : List String :=
  ((splitOnPred Char.isWhitespace s.data).filter (fun g => !g.isEmpty)).map
    (fun g => ⟨g⟩)

/-- The remainder of `s` after the first occurrence of (non-empty) `sep`,
`none` when `sep` does not occur: models `s.split(sep, 1)[1]`, whose
index access raises when the separator is absent. -/
def splitOnceRestAux (sep : List Char) : List Char → Option (List Char)
  | [] => none
  | c :: rest =>
    if sep.isPrefixOf (c :: rest) then some ((c :: rest).drop sep.length)
    else splitOnceRestAux sep rest

/-- `s.split(sep, 1)[1]` as an `Option`. -/
def pySplitOnceRest (s sep : String) : Option String :=
  (splitOnceRestAux sep.data s.data).map (fun l => ⟨l⟩)

/-- Numeric value of a list of decimal digit characters. -/
def natOfDigits (ds : List Char) : ℕ :=
  ds.foldl (fun a c => 10 * a + (c.toNat - 48)) 0

/-- The syntactic shape of an accepted decimal float literal: sign, integer
digits, fraction digits, exponent sign and exponent digits (an absent
exponent is recorded as no digits, i.e. exponent 0). -/
structure FloatLit where
  negative : Bool
  intDigits : List Char
  fracDigits : List Char
  expNegative : Bool
  expDigits : List Char
  deriving Repr, DecidableEq

/-- The scanning half of CPython `float()` on a decimal string literal:
optional surrounding whitespace, optional sign, a mantissa with at least
one digit and an optional single point, and an optional exponent part.
Returns `none` (a `ValueError`) on anything else. -/
def scanPyFloat (s : String) : Option FloatLit :=
  let cs := stripList Char.isWhitespace s.data
  let (neg, cs) := match cs with
    | '+' :: r => (false, r)
    | '-' :: r => (true, r)
    | _ => (false, cs)
  let ip := cs.takeWhile Char.isDigit
  let cs := cs.dropWhile Char.isDigit
  let (fp, cs) := match cs with
    | '.' :: r => (r.takeWhile Char.isDigit, r.dropWhile Char.isDigit)
    | _ => (([] : List Char), cs)
  if ip.isEmpty && fp.isEmpty then none
  else
    match cs with
    | [] => some ⟨neg, ip, fp, false, []⟩
    | e :: r =>
      if e = 'e' || e = 'E' then
        let (eneg, r) := match r with
          | '+' :: r2 => (false, r2)
          | '-' :: r2 => (true, r2)
          | _ => (false, r)
        let ed := r.takeWhile Char.isDigit
        let rest := r.dropWhile Char.isDigit
        if ed.isEmpty || !rest.isEmpty then none
        else some ⟨neg, ip, fp, eneg, ed⟩
      else none

/-- The numeric value of a scanned float literal. -/
def evalFloatLit (f : FloatLit) : ℚ :=
  let sgn : ℚ := if f.negative then -1 else 1
  let mant : ℚ := (natOfDigits f.intDigits : ℚ)
    + (natOfDigits f.fracDigits : ℚ) / (10 : ℚ) ^ f.fracDigits.length
  let ex : ℤ := if f.expNegative then -(natOfDigits f.expDigits : ℤ)
    else (natOfDigits f.expDigits : ℤ)
  sgn * mant * (10 : ℚ) ^ ex

/-- CPython `float()` on a decimal string literal. -/
def parsePyFloat (s : String) : Option ℚ :=
  (scanPyFloat s).map evalFloatLit

/-- `float(val)` applied to a string: returns the parsed value or raises
`ValueError`.  (`TypeError` is what `float` raises for *non-string,
non-numeric* arguments; for a string argument the failure is always
`ValueError`.) -/
def pyFloatOfStr (val : String) : Except PyExc ℚ :=
  match parsePyFloat val with
  | some q => .ok q
  | none => .error .valueError

/-! ## Format A: field coercion (`CompassSurveyParser._coerce`) -/

/-- `_FLOAT_KEYS`. -/
def FLOAT_KEYS : List String :=
  ["LENGTH", "BEARING", "AZM2", "INC", "INC2", "LEFT", "RIGHT", "UP", "DOWN"]

/-- `_INF_KEYS`. -/
def INF_KEYS : List String := ["LEFT", "RIGHT", "UP", "DOWN"]

/-- Result of coercing one shot field. -/
inductive CoerceVal
  | noData
  | inf
  | num (q : ℚ)
  | str (s : String)
  deriving Repr, DecidableEq

/-- `CompassSurveyParser._coerce(key, val)`: the `"-999.00"` sentinel maps
to `None`; for LRUD keys `"-9.90"`/`"-9999.00"` map to `float('inf')`;
float keys go through `float(val)` inside `try ... except TypeError`,
whose handler logs and falls through to `return val` — but a string that
fails to parse raises `ValueError`, which this handler does *not* catch,
so the exception propagates. -/
def coerce (key val : String) : Except PyExc CoerceVal :=
  if val = "-999.00" then .ok .noData
  else if INF_KEYS.contains key && (val = "-9.90" || val = "-9999.00") then .ok .inf
  else if FLOAT_KEYS.contains key then
    match pyFloatOfStr val with
    | .ok q => .ok (.num q)
    | .error .typeError => .ok (.str val)
    | .error e => .error e
  else .ok (.str val)

/-- The shot-field coercion step of `CompassSurveyParser.parse`: each
`(header, value)` pair goes through `_coerce` with no surrounding handler,
so a coercion exception aborts the survey parse. -/
def coerceShotVals (pairs : List (String × String)) :
    Except PyExc (List (String × CoerceVal)) :=
  pairs.mapM (fun p => (coerce p.1 p.2).map (fun v => (p.1, v)))

/-- The head of `CompassSurveyParser.parse`: the whitespace-stripped first
line either carries the `SURVEY NAME:` label itself (empty cave name, and
the name is `first_line.strip('SURVEY NAME:').strip()` — a character-set
strip), or it is the cave name and the next line is split on the label.
Returns `(cave_name, survey_name)`. -/
def parseCaveAndSurveyName (first_line next_line : String) : Option (String × String) :=
  let fl := pyStripWs first_line
  if pyStartsWith fl "SURVEY NAME:" then
    some ("", pyStripWs (pyStripSet fl ("SURVEY NAME:").data))
  else
    (pySplitOnceRest next_line "SURVEY NAME:").map (fun rest => (fl, pyStripWs rest))

/-! ## Format A: plot files (davies/compass/plt.py) -/

/-- The claim-relevant state of a `Plot`. -/
structure Plot where
  name : Option String := none
  utm_zone : Option Int := none
  datum : Option String := none
  ymin : Option ℚ := none
  ymax : Option ℚ := none
  xmin : Option ℚ := none
  xmax : Option ℚ := none
  zmin : Option ℚ := none
  zmax : Option ℚ := none
  edist : Option ℚ := none
  deriving Repr, DecidableEq

/-- `Plot.set_bounds(self, ymin, ymax, xmin, xmax, zmin, zmax, edist=None)`:
stores the six bounds, and its final statement is literally
`self.edist = None` — the `edist` argument is discarded. -/
def Plot.set_bounds (p : Plot) (ymin ymax xmin xmax zmin zmax : ℚ)
    (edist : Option ℚ) : Plot :=
  let _ := edist
  { p with ymin := some ymin, ymax := some ymax, xmin := some xmin,
           xmax := some xmax, zmin := some zmin, zmax := some zmax,
           edist := none }

/-- `(float(v) for v in toks)` consumed in full: the parsed floats, or
`none` (a `ValueError`) at the first unparseable token. -/
def parseFloats : List String → Option (List ℚ)
  | [] => some []
  | t :: ts =>
    match parsePyFloat t, parseFloats ts with
    | some v, some vs => some (v :: vs)
    | _, _ => none

/-- The `Z` branch of `CompassPltParser.parse`: try to unpack the payload
as 6 floats; on `ValueError`, unpack as 8 whitespace tokens whose 8th is
the error-distance float; then call `plt.set_bounds(..., edist)`. -/
def parseZLine (p : Plot) (val : String) : Except PyExc Plot :=
  let toks := pySplitWs val
  match parseFloats toks with
  | some [ymin, ymax, xmin, xmax, zmin, zmax] =>
    .ok (p.set_bounds ymin ymax xmin xmax zmin zmax none)
  | _ =>
    match toks with
    | [t1, t2, t3, t4, t5, t6, _t7, t8] =>
      match parsePyFloat t1, parsePyFloat t2, parsePyFloat t3, parsePyFloat t4,
            parsePyFloat t5, parsePyFloat t6, parsePyFloat t8 with
      | some ymin, some ymax, some xmin, some xmax, some zmin, some zmax, some edist =>
        .ok (p.set_bounds ymin ymax xmin xmax zmin zmax (some edist))
      | _, _, _, _, _, _, _ => .error .valueError
    | _ => .error .valueError

/-! ## Survey math (davies/survey_math.py) -/

/-- `angle_delta(a1, a2) = 180 - abs(abs(a1 - a2) - 180)`. -/
def angle_delta (a1 a2 : ℚ) : ℚ := 180 - |(|a1 - a2| - 180)|

/-! ## Format B: PocketTopo (davies/pockettopo/\_\_init\_\_.py) -/

/-- A Format-B shot: FROM/TO stations, LENGTH/AZM/INC readings, optional
comment, stamped declination, and the `dupe_count` merge counter
(initialised to 1 in `Shot.__init__`). -/
structure PShot where
  FROM : String := ""
  TO : Option String := none
  LENGTH : ℚ := 0
  AZM : ℚ := 0
  INC : ℚ := 0
  COMMENT : Option String := none
  declination : ℚ := 0
  dupe_count : ℕ := 1
  deriving Repr, DecidableEq

/-- Python truthiness of `shot.get('TO', None)`: `None` and `''` are falsy. -/
def truthyOptStr : Option String → Bool
  | none => false
  | some s => !s.isEmpty

/-- `Shot.is_splay`: `self.get('TO', None) in (None, '')`. -/
def PShot.is_splay (s : PShot) : Bool := !truthyOptStr s.TO

/-- A Format-B survey.  `splays` models the `defaultdict(list)` of splay
shots keyed by FROM station, flattened to insertion-ordered pairs. -/
structure PSurvey where
  name : Option String := none
  comment : Option String := none
  declination : ℚ := 0
  cave_name : Option String := none
  length_units : String := "m"
  angle_units : Int := 360
  shots : List PShot := []
  splays : List (String × PShot) := []
  deriving Repr, DecidableEq

/-- Plain `Survey.add_shot`: stamp the survey's declination, index splays
under their FROM station, and append. -/
def PSurvey.add_shot (sv : PSurvey) (shot : PShot) : PSurvey :=
  let shot := { shot with declination := sv.declination }
  let sv := if shot.is_splay then { sv with splays := sv.splays ++ [(shot.FROM, shot)] }
            else sv
  { sv with shots := sv.shots ++ [shot] }

/-- `MergingSurvey._inverse_azm`: `(azm + self.angle_units / 2) % self.angle_units`. -/
def PSurvey.inverse_azm (sv : PSurvey) (azm : ℚ) : ℚ :=
  pymod (azm + (sv.angle_units : ℚ) / 2) (sv.angle_units : ℚ)

/-- `MergingSurvey._inverse_inc`: `-1 * inc`. -/
def PSurvey.inverse_inc (inc : ℚ) : ℚ := -1 * inc

/-- Comment merging in `MergingSurvey.add_shot`:
`('%s %s' % (prev or '', new or '')).strip() or None`. -/
def mergeComments (prev next : Option String) : Option String :=
  let s := pyStripWs ((prev.getD "") ++ " " ++ (next.getD ""))
  if s.isEmpty then none else some s

/-- `MergingSurvey.add_shot`: looks back only at the immediately preceding
stored shot.  No previous shot, or a splay on either side, delegates to
the plain append; same FROM/TO merges with a running mean; reversed
FROM/TO first inverts AZM/INC and then merges; anything else appends. -/
def MergingSurvey.add_shot (sv : PSurvey) (shot : PShot) : PSurvey :=
  match sv.shots.getLast? with
  | none => sv.add_shot shot
  | some prev_shot =>
    if !truthyOptStr shot.TO || !truthyOptStr prev_shot.TO then sv.add_shot shot
    else
      let total_count : ℕ := prev_shot.dupe_count + 1
      if shot.FROM = prev_shot.FROM ∧ shot.TO = prev_shot.TO then
        let avg_length := (prev_shot.LENGTH * prev_shot.dupe_count + shot.LENGTH) / total_count
        let avg_azm := (prev_shot.AZM * prev_shot.dupe_count + shot.AZM) / total_count
        let avg_inc := (prev_shot.INC * prev_shot.dupe_count + shot.INC) / total_count
        let merged := { prev_shot with
          LENGTH := avg_length, AZM := avg_azm, INC := avg_inc,
          COMMENT := mergeComments prev_shot.COMMENT shot.COMMENT,
          dupe_count := prev_shot.dupe_count + 1 }
        { sv with shots := sv.shots.dropLast ++ [merged] }
      else if prev_shot.TO = some shot.FROM ∧ shot.TO = some prev_shot.FROM then
        let inv_azm := sv.inverse_azm shot.AZM
        let inv_inc := PSurvey.inverse_inc shot.INC
        let avg_length := (prev_shot.LENGTH * prev_shot.dupe_count + shot.LENGTH) / total_count
        let avg_azm := (prev_shot.AZM * prev_shot.dupe_count + inv_azm) / total_count
        let avg_inc := (prev_shot.INC * prev_shot.dupe_count + inv_inc) / total_count
        let merged := { prev_shot with
          LENGTH := avg_length, AZM := avg_azm, INC := avg_inc,
          COMMENT := mergeComments prev_shot.COMMENT shot.COMMENT,
          dupe_count := prev_shot.dupe_count + 1 }
        { sv with shots := sv.shots.dropLast ++ [merged] }
      else sv.add_shot shot

/-- The claim-relevant state of a Format-B `TxtFile`. -/
structure PTxtFile where
  name : Option String := none
  length_units : String := "m"
  angle_units : Int := 360
  surveys : List PSurvey := []
  deriving Repr, DecidableEq

/-- `TxtFile.add_survey`: overwrite the added survey's `length_units` and
`angle_units` with the file's own values, then append it. -/
def PTxtFile.add_survey (f : PTxtFile) (sv : PSurvey) : PTxtFile :=
  { f with surveys := f.surveys ++
      [{ sv with length_units := f.length_units, angle_units := f.angle_units }] }

/-! ## Theorems -/

/-- C1: For every Format-A Shot, the derived corrected azimuth and
inclination follow the spec's four-case formulas, and at declination 8.5,
BEARING=7.0, AZM2=189.0, INC=-4, INC2=3.5 the corrected azimuth is 16.5
and the corrected inclination is -3.75. -/
theorem C1_shot_azm_inc_formulas :
    (∀ s : CShot, s.azm = spec_azm s.BEARING s.AZM2 s.declination
      ∧ s.inc = spec_inc s.INC s.INC2)
    ∧ ({ BEARING := some 7, AZM2 := some 189, INC := some (-4),
         INC2 := some 3.5, declination := 8.5 : CShot }).azm = some 16.5
    ∧ ({ BEARING := some 7, AZM2 := some 189, INC := some (-4),
         INC2 := some 3.5, declination := 8.5 : CShot }).inc = some (-3.75) := by
  refine ⟨fun s => ⟨?_, ?_⟩, ?_, ?_⟩
  · cases h1 : s.BEARING <;> cases h2 : s.AZM2 <;>
      simp [CShot.azm, spec_azm, h1, h2]
  · cases h1 : s.INC <;> cases h2 : s.INC2 <;>
      simp [CShot.inc, spec_inc, h1, h2]
  · show spec_azm (some 7) (some 189) 8.5 = some 16.5
    norm_num [spec_azm, pymod]
  · show spec_inc (some (-4)) (some 3.5) = some (-3.75)
    norm_num [spec_inc]

theorem pySumAux_isSome_iff (l : List (Option ℚ)) :
    ∀ acc : ℚ, (pySumAux acc l).isSome = true ↔ ∀ x ∈ l, x.isSome = true := by
  induction l with
  | nil => intro acc; simp [pySumAux]
  | cons hd tl ih =>
    intro acc
    cases hd with
    | none => simp [pySumAux]
    | some x => simp [pySumAux, ih]

theorem pySumAux_of_all_some (l : List (Option ℚ)) :
    ∀ acc : ℚ, (∀ x ∈ l, x.isSome = true) →
      pySumAux acc l = some (acc + (l.map (fun o => o.getD 0)).sum) := by
  induction l with
  | nil => intro acc _; simp [pySumAux]
  | cons hd tl ih =>
    intro acc h
    cases hd with
    | none => simp at h
    | some x =>
      have := ih (acc + x) (fun y hy => h y (List.mem_cons_of_mem _ hy))
      simp [pySumAux, this, add_assoc]

theorem pySum_of_all_some (l : List (Option ℚ)) (h : ∀ x ∈ l, x.isSome = true) :
    pySum l = some ((l.map (fun o => o.getD 0)).sum) := by
  have := pySumAux_of_all_some l 0 h
  simpa [pySum] using this

theorem sum_map_filter_add_not (l : List CShot) (p : CShot → Bool) (f : CShot → ℚ) :
    ((l.filter p).map f).sum + ((l.filter (fun x => !(p x))).map f).sum
      = (l.map f).sum := by
  induction l with
  | nil => simp
  | cons hd tl ih =>
    cases h : p hd <;> simp [List.filter_cons, h, ← ih] <;> ring

theorem excluded_filter_eq_not_included (s : CShot) :
    (s.flags.contains Exclude.LENGTH || s.flags.contains Exclude.TOTAL)
      = !(s.is_included) := by
  simp [CShot.is_included]

/-- C2: for every Format-A survey whose shots all carry a numeric LENGTH,
`survey.length` is the sum of all shot lengths, `included_length` the sum
over shots without L/X flags, `excluded_length` the sum over shots with L
or X, and included + excluded = total. -/
theorem C2_survey_length_sums (sv : CSurvey)
    (h : ∀ s ∈ sv.shots, (s.LENGTH).isSome = true) :
    sv.length = some ((sv.shots.map shotLen).sum)
    ∧ sv.included_length = some (((sv.shots.filter CShot.is_included).map shotLen).sum)
    ∧ sv.excluded_length = some
        (((sv.shots.filter (fun s => !(s.is_included))).map shotLen).sum)
    ∧ ((sv.shots.filter CShot.is_included).map shotLen).sum
        + ((sv.shots.filter (fun s => !(s.is_included))).map shotLen).sum
      = (sv.shots.map shotLen).sum := by
  have hmap : ∀ (l : List CShot), (∀ s ∈ l, (s.LENGTH).isSome = true) →
      pySum (l.map CShot.length) = some ((l.map shotLen).sum) := by
    intro l hl
    have := pySum_of_all_some (l.map CShot.length) (by
      intro x hx
      rcases List.mem_map.mp hx with ⟨s, hs, rfl⟩
      exact hl s hs)
    rw [this]
    congr 1
    rw [List.map_map]
    rfl
  refine ⟨hmap sv.shots h, ?_, ?_, sum_map_filter_add_not _ _ _⟩
  · exact hmap _ (fun s hs => h s (List.mem_of_mem_filter hs))
  · have hfe : sv.shots.filter
        (fun shot => shot.flags.contains Exclude.LENGTH || shot.flags.contains Exclude.TOTAL)
        = sv.shots.filter (fun s => !(s.is_included)) := by
      apply List.filter_congr
      intro s _
      exact excluded_filter_eq_not_included s
    rw [CSurvey.excluded_length, hfe]
    exact hmap _ (fun s hs => h s (List.mem_of_mem_filter hs))

/-- Witness for C2 at a concrete two-shot survey (one L-flagged shot). -/
theorem C2_survey_length_sums_witness :
    let sv : CSurvey := { shots := [
      { FROM := some "A", TO := some "B", LENGTH := some 10 },
      { FROM := some "B", TO := some "C", LENGTH := some 4, FLAGS := some "L" }] }
    sv.length = some ((sv.shots.map shotLen).sum)
    ∧ sv.included_length = some (((sv.shots.filter CShot.is_included).map shotLen).sum)
    ∧ sv.excluded_length = some
        (((sv.shots.filter (fun s => !(s.is_included))).map shotLen).sum)
    ∧ ((sv.shots.filter CShot.is_included).map shotLen).sum
        + ((sv.shots.filter (fun s => !(s.is_included))).map shotLen).sum
      = (sv.shots.map shotLen).sum :=
  C2_survey_length_sums _ (by decide)

/-- C3 (code bug): a non-numeric string in a numeric shot field is meant to
be non-fatal, but `float(val)` on an unparseable string raises
`ValueError` while the handler catches only `TypeError`, so the coercion
— and with it the enclosing survey parse — aborts instead of logging and
retaining the original string. -/
theorem C3_coerce_nonnumeric_raises :
    coerce "LENGTH" "abc" = Except.error PyExc.valueError
    ∧ coerce "BEARING" "N25E" = Except.error PyExc.valueError
    ∧ coerceShotVals [("FROM", "A"), ("TO", "B"), ("LENGTH", "abc")]
        = Except.error PyExc.valueError := by
  refine ⟨?_, ?_, ?_⟩ <;> rfl

/-- C4 (code bug): a survey block whose first line is "SURVEY NAME: BS"
yields the empty cave name as claimed, but the survey name comes out as
"B", not "BS": `first_line.strip('SURVEY NAME:')` strips the character
*set* of the label from both ends, eating the trailing 'S'.  A name with
no label characters at its ends (e.g. "Q7") is returned intact. -/
theorem C4_survey_name_strip_set :
    parseCaveAndSurveyName "SURVEY NAME: BS" "" = some ("", "B")
    ∧ ("B" : String) ≠ "BS"
    ∧ parseCaveAndSurveyName "SURVEY NAME: Q7" "" = some ("", "Q7") := by
  refine ⟨?_, ?_, ?_⟩ <;> decide

theorem parsePyFloat_nonneg_int (s : String) (ds : List Char) (n : ℕ)
    (hscan : scanPyFloat s = some ⟨false, ds, [], false, []⟩)
    (hn : natOfDigits ds = n) :
    parsePyFloat s = some (n : ℚ) := by
  have hnil : natOfDigits ([] : List Char) = 0 := rfl
  simp [parsePyFloat, hscan, evalFloatLit, hn, hnil]

theorem parsePyFloat_neg_int (s : String) (ds : List Char) (n : ℕ)
    (hscan : scanPyFloat s = some ⟨true, ds, [], false, []⟩)
    (hn : natOfDigits ds = n) :
    parsePyFloat s = some (-(n : ℚ)) := by
  have hnil : natOfDigits ([] : List Char) = 0 := rfl
  simp [parsePyFloat, hscan, evalFloatLit, hn, hnil]

theorem parsePyFloat_two_point_five : parsePyFloat "2.5" = some 2.5 := by
  have h : scanPyFloat "2.5" = some ⟨false, ['2'], ['5'], false, []⟩ := by decide
  have h2 : natOfDigits ['2'] = 2 := by decide
  have h5 : natOfDigits ['5'] = 5 := by decide
  have hnil : natOfDigits ([] : List Char) = 0 := rfl
  simp [parsePyFloat, h, evalFloatLit, h2, h5, hnil]
  norm_num

/-- C6 (code bug): the 8-token Z-line fallback parses the 8th token as an
error-distance float and hands it to `Plot.set_bounds`, but `set_bounds`
ends with `self.edist = None`, so the stored error distance is always
absent — never the parsed float. -/
theorem C6_zline_edist_discarded :
    parsePyFloat "2.5" = some 2.5
    ∧ parseZLine {} " -100 100 -50 50 0 30 I 2.5"
        = Except.ok { ymin := some (-100), ymax := some 100, xmin := some (-50),
                      xmax := some 50, zmin := some 0, zmax := some 30, edist := none }
    ∧ (∀ (p : Plot) (b1 b2 b3 b4 b5 b6 q : ℚ),
        (Plot.set_bounds p b1 b2 b3 b4 b5 b6 (some q)).edist = none) := by
  have htoks : pySplitWs " -100 100 -50 50 0 30 I 2.5"
      = ["-100", "100", "-50", "50", "0", "30", "I", "2.5"] := by decide
  have hm100 : parsePyFloat "-100" = some (-(100 : ℚ)) :=
    parsePyFloat_neg_int _ ['1', '0', '0'] 100 (by decide) (by decide)
  have h100 : parsePyFloat "100" = some ((100 : ℕ) : ℚ) :=
    parsePyFloat_nonneg_int _ ['1', '0', '0'] 100 (by decide) (by decide)
  have hm50 : parsePyFloat "-50" = some (-(50 : ℚ)) :=
    parsePyFloat_neg_int _ ['5', '0'] 50 (by decide) (by decide)
  have h50 : parsePyFloat "50" = some ((50 : ℕ) : ℚ) :=
    parsePyFloat_nonneg_int _ ['5', '0'] 50 (by decide) (by decide)
  have h0 : parsePyFloat "0" = some ((0 : ℕ) : ℚ) :=
    parsePyFloat_nonneg_int _ ['0'] 0 (by decide) (by decide)
  have h30 : parsePyFloat "30" = some ((30 : ℕ) : ℚ) :=
    parsePyFloat_nonneg_int _ ['3', '0'] 30 (by decide) (by decide)
  have hI : parsePyFloat "I" = none := by
    have : scanPyFloat "I" = none := by decide
    simp [parsePyFloat, this]
  refine ⟨parsePyFloat_two_point_five, ?_, fun p b1 b2 b3 b4 b5 b6 q => rfl⟩
  simp [parseZLine, htoks, parseFloats, hm100, h100, hm50, h50, h0, h30, hI,
        parsePyFloat_two_point_five, Plot.set_bounds]

/-- C7: `Survey.add_shot` stamps the survey's declination onto the shot at
insertion time; updating the survey's declination afterwards leaves the
already-added shot (its declination and hence its corrected azimuth)
unchanged, while a shot added after the change receives the new value. -/
theorem C7_declination_stamped_at_insertion (sv : CSurvey) (sh sh2 : CShot) (d2 : ℚ) :
    (sv.add_shot sh).shots = sv.shots ++ [{ sh with declination := sv.declination }]
    ∧ ({ sv.add_shot sh with declination := d2 }).shots = (sv.add_shot sh).shots
    ∧ (({ sv.add_shot sh with declination := d2 }).shots.getLast?).map CShot.azm
        = some ({ sh with declination := sv.declination } : CShot).azm
    ∧ (({ sv.add_shot sh with declination := d2 }).add_shot sh2).shots
        = sv.shots ++ [{ sh with declination := sv.declination },
                       { sh2 with declination := d2 }] := by
  refine ⟨rfl, rfl, ?_, ?_⟩
  · simp [CSurvey.add_shot]
  · simp [CSurvey.add_shot]

theorem pySum_map_isSome_iff (l : List CShot) :
    (pySum (l.map CShot.length)).isSome = true ↔ ∀ s ∈ l, (s.LENGTH).isSome = true := by
  rw [pySum, pySumAux_isSome_iff]
  constructor
  · intro h s hs
    exact h _ (List.mem_map_of_mem _ hs)
  · intro h x hx
    rcases List.mem_map.mp hx with ⟨s, hs, rfl⟩
    exact h s hs

/-- C9: each of the three Format-A survey length computations succeeds
exactly when every shot it counts carries a numeric LENGTH; one absent
LENGTH (for instance parsed from the "-999.00" sentinel, which coerces to
absent) makes the computation fail rather than being skipped or counted
as zero. -/
theorem C9_length_partiality :
    (∀ sv : CSurvey,
      (sv.length).isSome = true ↔ ∀ s ∈ sv.shots, (s.LENGTH).isSome = true)
    ∧ (∀ sv : CSurvey,
      (sv.included_length).isSome = true ↔
        ∀ s ∈ sv.shots.filter CShot.is_included, (s.LENGTH).isSome = true)
    ∧ (∀ sv : CSurvey,
      (sv.excluded_length).isSome = true ↔
        ∀ s ∈ sv.shots.filter
          (fun shot => shot.flags.contains Exclude.LENGTH
            || shot.flags.contains Exclude.TOTAL), (s.LENGTH).isSome = true)
    ∧ coerce "LENGTH" "-999.00" = Except.ok CoerceVal.noData
    ∧ ({ shots := [{ FROM := some "A", TO := some "B" }] } : CSurvey).length = none := by
  exact ⟨fun sv => pySum_map_isSome_iff sv.shots,
         fun sv => pySum_map_isSome_iff _,
         fun sv => pySum_map_isSome_iff _,
         rfl, rfl⟩

/-- C8 counterexample: `angle_delta` does not stay within [0,180] for all
float inputs — at a1 = 500, a2 = 0 it returns -140. -/
theorem C8_range_counterexample :
    angle_delta 500 0 = -140 ∧ ¬(0 ≤ angle_delta 500 0) := by
  have h1 : |(500 : ℚ) - 0| = 500 := by
    rw [abs_of_nonneg] <;> norm_num
  have h2 : |(500 : ℚ) - 180| = 320 := by
    rw [abs_of_nonneg] <;> norm_num
  constructor <;> simp only [angle_delta] <;> rw [h1, h2] <;> norm_num

/-- C8 amended: `angle_delta(a1, a2) = 180 - abs(abs(a1-a2) - 180)` is
symmetric in its arguments and never exceeds 180; its result lies in
[0,180] whenever the inputs are at most 360 apart (in particular for
angles in the usual [0,360) range). -/
theorem C8_angle_delta_amended (a1 a2 : ℚ) :
    angle_delta a1 a2 = angle_delta a2 a1
    ∧ angle_delta a1 a2 ≤ 180
    ∧ (|a1 - a2| ≤ 360 → 0 ≤ angle_delta a1 a2) := by
  refine ⟨by simp only [angle_delta]; rw [abs_sub_comm a1 a2], ?_, ?_⟩
  · have h : 0 ≤ |(|a1 - a2| - 180)| := abs_nonneg _
    simp only [angle_delta]
    linarith
  · intro h
    have h0 : 0 ≤ |a1 - a2| := abs_nonneg _
    have hb : |(|a1 - a2| - 180)| ≤ 180 := by
      rw [abs_le]
      constructor <;> linarith
    simp only [angle_delta]
    linarith

/-- Witness for C8 amended at a1 = 359, a2 = 0. -/
theorem C8_angle_delta_amended_witness :
    angle_delta 359 0 = angle_delta 0 359
    ∧ angle_delta 359 0 ≤ 180
    ∧ 0 ≤ angle_delta 359 0 :=
  ⟨(C8_angle_delta_amended 359 0).1, (C8_angle_delta_amended 359 0).2.1,
   (C8_angle_delta_amended 359 0).2.2 (by norm_num)⟩

theorem dropWhile_append_of_self (p : Char → Bool) (l1 l2 : List Char)
    (h : l1.dropWhile p = l1) (hne : l1 ≠ []) :
    (l1 ++ l2).dropWhile p = l1 ++ l2 := by
  cases l1 with
  | nil => exact absurd rfl hne
  | cons c t =>
    by_cases hc : p c = true
    · rw [List.dropWhile_cons_of_pos hc] at h
      have h1 := congrArg List.length h
      have h2 := (List.dropWhile_suffix (l := t) p).length_le
      simp only [List.length_cons] at h1
      omega
    · rw [List.cons_append, List.dropWhile_cons_of_neg hc]

theorem stripList_eq_self_parts (p : Char → Bool) (l : List Char)
    (h : stripList p l = l) :
    l.dropWhile p = l ∧ l.reverse.dropWhile p = l.reverse := by
  have hsub1 : (l.dropWhile p).length ≤ l.length := (List.dropWhile_suffix p).length_le
  have hsub2 : ((l.dropWhile p).reverse.dropWhile p).length ≤ (l.dropWhile p).length := by
    have := (List.dropWhile_suffix (l := (l.dropWhile p).reverse) p).length_le
    simpa using this
  have hlen := congrArg List.length h
  rw [stripList] at hlen
  simp only [List.length_reverse] at hlen
  have hlen1 : (l.dropWhile p).length = l.length := by omega
  have hdw : l.dropWhile p = l :=
    (List.dropWhile_suffix p).eq_of_length hlen1
  refine ⟨hdw, ?_⟩
  rw [stripList, hdw] at h
  have h2 := congrArg List.reverse h
  simpa using h2

theorem stripList_append_mid (p : Char → Bool) (A B : List Char) (m : Char)
    (hA : stripList p A = A) (hAne : A ≠ []) (hB : stripList p B = B) (hBne : B ≠ []) :
    stripList p (A ++ m :: B) = A ++ m :: B := by
  obtain ⟨hA1, hA2⟩ := stripList_eq_self_parts p A hA
  obtain ⟨hB1, hB2⟩ := stripList_eq_self_parts p B hB
  have h1 : (A ++ m :: B).dropWhile p = A ++ m :: B :=
    dropWhile_append_of_self p A (m :: B) hA1 hAne
  have hrev : (A ++ m :: B).reverse = B.reverse ++ m :: A.reverse := by
    simp
  have hBrevne : B.reverse ≠ [] := by
    simp only [ne_eq, List.reverse_eq_nil_iff]
    exact hBne
  have h2 : ((A ++ m :: B).reverse).dropWhile p = (A ++ m :: B).reverse := by
    rw [hrev]
    exact dropWhile_append_of_self p B.reverse (m :: A.reverse) hB2 hBrevne
  rw [stripList, h1, h2, List.reverse_reverse]

theorem pyStripWs_append_of_stripped (a b : String)
    (ha : pyStripWs a = a) (hane : a ≠ "") (hb : pyStripWs b = b) (hbne : b ≠ "") :
    pyStripWs (a ++ " " ++ b) = a ++ " " ++ b ∧ (a ++ " " ++ b) ≠ "" := by
  have hadata : stripList Char.isWhitespace a.data = a.data := congrArg String.data ha
  have hbdata : stripList Char.isWhitespace b.data = b.data := congrArg String.data hb
  have hane2 : a.data ≠ [] := by
    intro h0
    exact hane (String.ext (h0.trans rfl))
  have hbne2 : b.data ≠ [] := by
    intro h0
    exact hbne (String.ext (h0.trans rfl))
  have hd : (a ++ " " ++ b).data = a.data ++ ' ' :: b.data := by
    simp [String.data_append]
  constructor
  · apply String.ext
    show stripList Char.isWhitespace (a ++ " " ++ b).data = (a ++ " " ++ b).data
    rw [hd]
    exact stripList_append_mid Char.isWhitespace a.data b.data ' ' hadata hane2 hbdata hbne2
  · intro hq
    have h0 := congrArg String.data hq
    rw [hd] at h0
    simp at h0

theorem mergeComments_some_of_stripped (a b : String)
    (ha : pyStripWs a = a) (hane : a ≠ "") (hb : pyStripWs b = b) (hbne : b ≠ "") :
    mergeComments (some a) (some b) = some (a ++ " " ++ b) := by
  obtain ⟨hs, hne⟩ := pyStripWs_append_of_stripped a b ha hane hb hbne
  have hie : (a ++ " " ++ b).isEmpty = false := by
    cases hq : (a ++ " " ++ b).isEmpty
    · rfl
    · exact absurd ((String.isEmpty_iff _).mp hq) hne
  simp only [mergeComments, Option.getD_some, hs, hie]
  rfl

/-- C5: three consecutive shots with the same non-empty FROM and TO added
to an empty duplicate-merging Format-B survey collapse into exactly one
stored shot whose LENGTH, AZM and INC are the arithmetic means of the
three added values (via the running mean), whose COMMENT is the
space-joined concatenation of the three (already-trimmed, non-empty)
comments, and whose dupe_count is 3. -/
theorem C5_merging_triple_shot (sv : PSurvey) (hempty : sv.shots = [])
    (f t : String) (ht : t.isEmpty = false)
    (l1 a1 i1 l2 a2 i2 l3 a3 i3 : ℚ) (c1 c2 c3 : String)
    (hc1 : pyStripWs c1 = c1) (hc1ne : c1 ≠ "")
    (hc2 : pyStripWs c2 = c2) (hc2ne : c2 ≠ "")
    (hc3 : pyStripWs c3 = c3) (hc3ne : c3 ≠ "") :
    (MergingSurvey.add_shot (MergingSurvey.add_shot (MergingSurvey.add_shot sv
        { FROM := f, TO := some t, LENGTH := l1, AZM := a1, INC := i1, COMMENT := some c1 })
        { FROM := f, TO := some t, LENGTH := l2, AZM := a2, INC := i2, COMMENT := some c2 })
        { FROM := f, TO := some t, LENGTH := l3, AZM := a3, INC := i3, COMMENT := some c3 }).shots
      = [{ FROM := f, TO := some t,
           LENGTH := (l1 + l2 + l3) / 3, AZM := (a1 + a2 + a3) / 3,
           INC := (i1 + i2 + i3) / 3,
           COMMENT := some (c1 ++ " " ++ c2 ++ " " ++ c3),
           declination := sv.declination, dupe_count := 3 }] := by
  have htt : truthyOptStr (some t) = true := by
    simp [truthyOptStr, ht]
  have m12 := mergeComments_some_of_stripped c1 c2 hc1 hc1ne hc2 hc2ne
  obtain ⟨h12s, h12ne⟩ := pyStripWs_append_of_stripped c1 c2 hc1 hc1ne hc2 hc2ne
  have m123 := mergeComments_some_of_stripped (c1 ++ " " ++ c2) c3 h12s h12ne hc3 hc3ne
  simp [MergingSurvey.add_shot, PSurvey.add_shot, PShot.is_splay, htt, hempty,
    m12, m123]

/-- Witness for C5: three concrete "A"→"B" shots with readings (1,10,-1),
(2,11,0), (3,12,1) and comments "x","y","z" merge into one shot. -/
theorem C5_merging_triple_shot_witness :
    (MergingSurvey.add_shot (MergingSurvey.add_shot (MergingSurvey.add_shot
        ({} : PSurvey)
        { FROM := "A", TO := some "B", LENGTH := 1, AZM := 10, INC := -1, COMMENT := some "x" })
        { FROM := "A", TO := some "B", LENGTH := 2, AZM := 11, INC := 0, COMMENT := some "y" })
        { FROM := "A", TO := some "B", LENGTH := 3, AZM := 12, INC := 1, COMMENT := some "z" }).shots
      = [{ FROM := "A", TO := some "B",
           LENGTH := (1 + 2 + 3) / 3, AZM := (10 + 11 + 12) / 3, INC := (-1 + 0 + 1) / 3,
           COMMENT := some ("x" ++ " " ++ "y" ++ " " ++ "z"),
           declination := ({} : PSurvey).declination, dupe_count := 3 }] :=
  C5_merging_triple_shot {} rfl "A" "B" (by decide) 1 10 (-1) 2 11 0 3 12 1 "x" "y" "z"
    (by decide) (by decide) (by decide) (by decide) (by decide) (by decide)

/-- C10: every survey contained in a Format-B TxtFile carries the file's
`length_units` and `angle_units` — `add_survey` overwrites the added
survey's units, so the invariant is preserved by any sequence of
`add_survey` calls, regardless of the units the surveys were constructed
with. -/
theorem C10_txtfile_units_invariant (init : PTxtFile)
    (h : ∀ sv ∈ init.surveys,
      sv.length_units = init.length_units ∧ sv.angle_units = init.angle_units)
    (svs : List PSurvey) :
    ∀ sv ∈ (svs.foldl PTxtFile.add_survey init).surveys,
      sv.length_units = init.length_units ∧ sv.angle_units = init.angle_units := by
  induction svs generalizing init with
  | nil => simpa using h
  | cons hd tl ih =>
    intro sv hsv
    have hstep : ∀ s ∈ (init.add_survey hd).surveys,
        s.length_units = (init.add_survey hd).length_units
        ∧ s.angle_units = (init.add_survey hd).angle_units := by
      intro s hs
      simp only [PTxtFile.add_survey] at hs
      rcases List.mem_append.mp hs with hmem | hmem
      · exact h s hmem
      · rcases List.mem_singleton.mp hmem with rfl
        exact ⟨rfl, rfl⟩
    exact ih (init.add_survey hd) hstep sv hsv

/-- Witness for C10: a survey constructed with units (m, 400) stored into a
(feet, 360) file carries the file's units. -/
theorem C10_txtfile_units_invariant_witness :
    ({ name := some "1", length_units := "feet", angle_units := 360 } : PSurvey).length_units
        = "feet"
    ∧ ({ name := some "1", length_units := "feet", angle_units := 360 } : PSurvey).angle_units
        = 360 :=
  C10_txtfile_units_invariant { length_units := "feet", angle_units := 360 }
    (by intro sv hsv; exact absurd hsv (List.not_mem_nil _))
    [{ name := some "1", length_units := "m", angle_units := 400 }]
    { name := some "1", length_units := "feet", angle_units := 360 }
    (by simp [PTxtFile.add_survey, List.foldl_cons, List.foldl_nil])
